import Mathlib

/-!
Shallow embedding of the carousel interaction controller of the
`carousel-photobooth` front-end (the home-screen Vue component).

State fields mirror the component's refs; pointer, keyboard and
transition handlers are translated as pure state-transformers, the
asynchronous session-start request is split into its synchronous
prefix (`confirmBegin`) and the continuation that runs when the fetch
settles (`resolveConfirm`).  Pixel coordinates are rationals so that
the 25%-of-width threshold is exact.  Two instrumentation counters
(`navCount` for `router.push` to the photo-session screen and
`requestCount` for issued fetches) record the externally observable
effects.
-/

namespace Carousel

/-- The reactive state of the home-screen component. -/
structure CState where
  total : Nat
  hasReal : Bool
  allowTransition : Bool
  trackPosition : Nat
  currentIndex : Nat
  containerWidth : Nat
  dragOffset : Int
  isAnimating : Bool
  isPointerDown : Bool
  isDragging : Bool
  pointerId : Option Nat
  dragStartX : Int
  isModalOpen : Bool
  isStartingSession : Bool
  modalError : String
  cursorHidden : Bool
  cursorTimerArmed : Bool
  navCount : Nat
  requestCount : Nat
  deriving DecidableEq, Repr

/-- State right after mount: the slide-identity watch has set index 0,
cleared the drag offset, and re-enabled transitions; no gesture or
modal activity yet. -/
def initState (total : Nat) (hasReal : Bool) : CState :=
  { total := total
    hasReal := hasReal
    allowTransition := true
    trackPosition := 0
    currentIndex := 0
    containerWidth := 0
    dragOffset := 0
    isAnimating := false
    isPointerDown := false
    isDragging := false
    pointerId := none
    dragStartX := 0
    isModalOpen := false
    isStartingSession := false
    modalError := ""
    cursorHidden := false
    cursorTimerArmed := true
    navCount := 0
    requestCount := 0 }

/-- `resetCursorTimer`: unhide the cursor, clear any pending timer, and
re-arm the 3-second hide timer unless the modal is open. -/
def resetCursorTimer (s : CState) : CState :=
  let s1 := { s with cursorHidden := false, cursorTimerArmed := false }
  if s1.isModalOpen then s1 else { s1 with cursorTimerArmed := true }

/-- `openModal`: no-op when already open; otherwise cancel the cursor
timer, show the cursor, clear the error text and open the modal. -/
def openModal (s : CState) : CState :=
  if s.isModalOpen then s
  else { s with cursorTimerArmed := false, cursorHidden := false,
                modalError := "", isModalOpen := true }

/-- `closeModal`: refused while a session-start request is in flight;
otherwise clear the error, close the modal and restart the cursor timer. -/
def closeModal (s : CState) : CState :=
  if s.isStartingSession then s
  else resetCursorTimer { s with modalError := "", isModalOpen := false }

/-- The generic error shown when the failure response carries no usable
`message` field. -/
def fallbackMessage : String := "Failed to start the photo session. Please try again."

/-- The error shown when the caught exception carries no message text. -/
def unexpectedMessage : String := "Unexpected error starting session."

/-- Outcome of the session-start fetch: a transport-level rejection
carrying the thrown error's message, or an HTTP response with a status
and the optional `message` field of its JSON body (`none` also covers a
malformed body, which the code replaces by `{}`). -/
inductive FetchResult where
  | failure (errMsg : String)
  | response (status : Nat) (message : Option String)
  deriving DecidableEq, Repr

/-- `Response.ok`: status in the 2xx range. -/
def responseOk (status : Nat) : Bool := 200 ≤ status && status < 300

/-- Synchronous prefix of `confirmStart`: the re-entrancy guard, clearing
the error, raising the busy flag and issuing the fetch. -/
def confirmBegin (s : CState) : CState :=
  if s.isStartingSession then s
  else { s with modalError := "", isStartingSession := true,
                requestCount := s.requestCount + 1 }

/-- Continuation of `confirmStart` once the fetch settles.  A non-ok
response throws `Error(payload.message || fallback)`; JS truthiness makes
an empty `message` fall back.  The catch block shows `error.message` when
non-empty, else the generic text; `finally` clears the busy flag. -/
def resolveConfirm (r : FetchResult) (s : CState) : CState :=
  match r with
  | .failure m =>
      { s with modalError := if m = "" then unexpectedMessage else m,
               isStartingSession := false }
  | .response status msg =>
      if responseOk status then
        { s with isModalOpen := false, navCount := s.navCount + 1,
                 isStartingSession := false }
      else
        let m := match msg with
          | some m => if m = "" then fallbackMessage else m
          | none => fallbackMessage
        { s with modalError := m, isStartingSession := false }

/-- A whole `confirmStart` run: guard, then the settled continuation. -/
def confirmStart (r : FetchResult) (s : CState) : CState :=
  if s.isStartingSession then s else resolveConfirm r (confirmBegin s)

/-- `goNext`: no-op without at least 2 real slides, while animating, or at
the last index; otherwise advance one slide. -/
def goNext (s : CState) : CState :=
  if ¬s.hasReal ∨ s.total ≤ 1 then s
  else if s.isAnimating then s
  else if s.total - 1 ≤ s.currentIndex then s
  else
    { s with allowTransition := true, dragOffset := 0, isAnimating := true,
             currentIndex := s.currentIndex + 1,
             trackPosition := s.currentIndex + 1 }

/-- `goPrev`: no-op without at least 2 real slides, while animating, or at
index 0; otherwise go back one slide. -/
def goPrev (s : CState) : CState :=
  if ¬s.hasReal ∨ s.total ≤ 1 then s
  else if s.isAnimating then s
  else if s.currentIndex = 0 then s
  else
    { s with allowTransition := true, dragOffset := 0, isAnimating := true,
             currentIndex := s.currentIndex - 1,
             trackPosition := s.currentIndex - 1 }

/-- `finishTransitionIfNeeded` (transitionend handler): clears the
animating flag. -/
def finishTransitionIfNeeded (s : CState) : CState :=
  if ¬s.isAnimating then s
  else if ¬s.hasReal ∨ s.total ≤ 1 then { s with isAnimating := false }
  else { s with isAnimating := false }

/-- `pointerThreshold`: `Math.min(160, containerWidth * 0.25 || 160)`,
scaled by 4 to stay in the integers; a zero width makes the JS product
falsy, so the threshold is then 160 (scaled: 640). -/
def pointerThreshold4 (s : CState) : Nat :=
  if s.containerWidth = 0 then 640
  else min 640 s.containerWidth

/-- `resetDragState`: clear offset, both pointer flags and the stored id. -/
def resetDragState (s : CState) : CState :=
  { s with dragOffset := 0, isDragging := false, isPointerDown := false,
           pointerId := none }

/-- `handlePointerDown`: ignored while the modal is open; else restart the
cursor timer and arm a fresh gesture with transitions disabled. -/
def handlePointerDown (x : Int) (pid : Nat) (s : CState) : CState :=
  if s.isModalOpen then s
  else
    let s1 := resetCursorTimer s
    { s1 with isPointerDown := true, pointerId := some pid, dragStartX := x,
              dragOffset := 0, isDragging := false, allowTransition := false }

/-- `handlePointerMove`: ignored unless a pointer is down and the modal is
closed; engages dragging past 20px of travel (cancelling any animation)
and, while dragging, tracks the pointer in the drag offset. -/
def handlePointerMove (x : Int) (s : CState) : CState :=
  if ¬s.isPointerDown ∨ s.isModalOpen then s
  else
    let deltaX := x - s.dragStartX
    let s1 := if ¬s.isDragging ∧ 20 < deltaX.natAbs then
        { s with isDragging := true, isAnimating := false }
      else s
    if s1.isDragging then { s1 with dragOffset := deltaX } else s1

/-- `triggerNavigationForDrag`: below the threshold (or without at least
2 real slides) restore transitions and report no navigation; otherwise
dispatch `goNext` or `goPrev` by sign and report a navigation. -/
def triggerNavigationForDrag (deltaX : Int) (s : CState) : CState × Bool :=
  if ¬s.hasReal ∨ s.total ≤ 1 then
    ({ s with allowTransition := true, dragOffset := 0 }, false)
  else if 4 * deltaX.natAbs < pointerThreshold4 s then
    ({ s with allowTransition := true, dragOffset := 0 }, false)
  else if deltaX < 0 then (goNext s, true)
  else (goPrev s, true)

/-- `handlePointerUp`: when a pointer is down, compute the displacement,
navigate if dragging, otherwise treat the release as a tap that opens the
modal (also after a drag that ended within 20px), then restore
transitions unless navigating or the modal opened, and always reset the
drag state and cursor timer. -/
def handlePointerUp (x : Int) (s : CState) : CState :=
  if ¬s.isPointerDown then s
  else
    let deltaX := x - s.dragStartX
    let p := if s.isDragging then triggerNavigationForDrag deltaX s
             else (s, false)
    let s1 := p.1
    let navigated := p.2
    let s2 :=
      if ¬s1.isDragging ∧ ¬navigated ∧ ¬s1.isModalOpen then openModal s1
      else if s1.isDragging ∧ deltaX.natAbs ≤ 20 ∧ ¬navigated ∧ ¬s1.isModalOpen then
        openModal s1
      else s1
    let s3 := if ¬navigated ∧ ¬s2.isModalOpen then
        { s2 with allowTransition := true, dragOffset := 0 }
      else s2
    resetCursorTimer (resetDragState s3)

/-- `handlePointerCancel`: when a pointer is down, restore transitions,
clear the offset and reset the drag state and cursor timer. -/
def handlePointerCancel (s : CState) : CState :=
  if ¬s.isPointerDown then s
  else
    resetCursorTimer
      (resetDragState { s with allowTransition := true, dragOffset := 0 })

/-- `handlePointerLeave`: when a pointer is down, delegate to
`handlePointerUp` with the same event. -/
def handlePointerLeave (x : Int) (s : CState) : CState :=
  if ¬s.isPointerDown then s else handlePointerUp x s

/-- The keys the keydown handler distinguishes. -/
inductive Key where
  | arrowRight | arrowLeft | enter | escape | other
  deriving DecidableEq, Repr

/-- `handleKeydown`: ignores key repeats; arrows navigate when the modal
is closed, Enter confirms (its synchronous prefix) or opens the modal,
Escape closes it. -/
def handleKeydown (k : Key) (rep : Bool) (s : CState) : CState :=
  if rep then s
  else
    match k with
    | .arrowRight => if ¬s.isModalOpen then goNext s else s
    | .arrowLeft => if ¬s.isModalOpen then goPrev s else s
    | .enter => if s.isModalOpen then confirmBegin s else openModal s
    | .escape => if s.isModalOpen then closeModal s else s
    | .other => s

/-- The UI events the component reacts to; `resolve` is the settling of
an in-flight session-start fetch, `resize` is the window-resize bound
update. -/
inductive Event where
  | pointerDown (x : Int) (pid : Nat)
  | pointerMove (x : Int)
  | pointerUp (x : Int)
  | pointerCancel
  | pointerLeave (x : Int)
  | keydown (k : Key) (rep : Bool)
  | transitionEnd
  | resolve (r : FetchResult)
  | resize (w : Nat)
  deriving DecidableEq, Repr

/-- One step of the event loop. -/
def step (e : Event) (s : CState) : CState :=
  match e with
  | .pointerDown x pid => handlePointerDown x pid s
  | .pointerMove x => handlePointerMove x s
  | .pointerUp x => handlePointerUp x s
  | .pointerCancel => handlePointerCancel s
  | .pointerLeave x => handlePointerLeave x s
  | .keydown k rep => handleKeydown k rep s
  | .transitionEnd => finishTransitionIfNeeded s
  | .resolve r => if s.isStartingSession then resolveConfirm r s else s
  | .resize w => { s with containerWidth := w }

/-- Run a sequence of events. -/
def run (s : CState) (es : List Event) : CState :=
  es.foldl (fun t e => step e t) s

/-- A navigation request, as issued by arrow keys or drags. -/
inductive Nav where
  | next | prev
  deriving DecidableEq, Repr

/-- Apply one navigation request. -/
def applyNav (s : CState) (n : Nav) : CState :=
  match n with
  | .next => goNext s
  | .prev => goPrev s

/-- Apply a sequence of navigation requests. -/
def applyNavs (s : CState) (l : List Nav) : CState := l.foldl applyNav s

/-- A slide as the preload watcher sees it. -/
inductive SlideKind where
  | image | placeholder
  deriving DecidableEq, Repr

/-- The fields of a slide that the preload watcher reads. -/
structure Slide where
  kind : SlideKind
  src : String
  deriving DecidableEq, Repr

/-- Capacity bound of the preload cache. -/
def maxPreloadCacheSize : Nat := 50

/-- One iteration of the preload watcher's loop body on one slide: skip
non-images and cached sources; otherwise request the image, append the
source to the cache (a JS `Set` keeps insertion order) and, when the
cache exceeds the bound, delete its first entry — guarded by the entry
being truthy, so an empty-string head would be kept.  The Boolean
reports whether a preload request was issued. -/
def preloadStep (cache : List String) (slide : Slide) : List String × Bool :=
  if slide.kind = SlideKind.image ∧ slide.src ∉ cache then
    let c := cache ++ [slide.src]
    let c2 := if maxPreloadCacheSize < c.length then
        match c.head? with
        | some h => if h = "" then c else c.tail
        | none => c
      else c
    (c2, true)
  else (cache, false)


/-! ### Helper lemmas on the handlers -/

@[simp] lemma resetCursorTimer_currentIndex (s : CState) :
    (resetCursorTimer s).currentIndex = s.currentIndex := by
  simp only [resetCursorTimer]; split <;> rfl

@[simp] lemma resetCursorTimer_isModalOpen (s : CState) :
    (resetCursorTimer s).isModalOpen = s.isModalOpen := by
  simp only [resetCursorTimer]; split <;> rfl

@[simp] lemma resetCursorTimer_total (s : CState) :
    (resetCursorTimer s).total = s.total := by
  simp only [resetCursorTimer]; split <;> rfl

@[simp] lemma resetCursorTimer_trackPosition (s : CState) :
    (resetCursorTimer s).trackPosition = s.trackPosition := by
  simp only [resetCursorTimer]; split <;> rfl

@[simp] lemma resetCursorTimer_isAnimating (s : CState) :
    (resetCursorTimer s).isAnimating = s.isAnimating := by
  simp only [resetCursorTimer]; split <;> rfl

@[simp] lemma resetCursorTimer_navCount (s : CState) :
    (resetCursorTimer s).navCount = s.navCount := by
  simp only [resetCursorTimer]; split <;> rfl

@[simp] lemma resetCursorTimer_dragOffset (s : CState) :
    (resetCursorTimer s).dragOffset = s.dragOffset := by
  simp only [resetCursorTimer]; split <;> rfl

@[simp] lemma resetCursorTimer_isDragging (s : CState) :
    (resetCursorTimer s).isDragging = s.isDragging := by
  simp only [resetCursorTimer]; split <;> rfl

@[simp] lemma resetCursorTimer_isPointerDown (s : CState) :
    (resetCursorTimer s).isPointerDown = s.isPointerDown := by
  simp only [resetCursorTimer]; split <;> rfl

@[simp] lemma resetCursorTimer_pointerId (s : CState) :
    (resetCursorTimer s).pointerId = s.pointerId := by
  simp only [resetCursorTimer]; split <;> rfl

@[simp] lemma resetCursorTimer_allowTransition (s : CState) :
    (resetCursorTimer s).allowTransition = s.allowTransition := by
  simp only [resetCursorTimer]; split <;> rfl

@[simp] lemma resetDragState_currentIndex (s : CState) :
    (resetDragState s).currentIndex = s.currentIndex := rfl

@[simp] lemma resetDragState_isModalOpen (s : CState) :
    (resetDragState s).isModalOpen = s.isModalOpen := rfl

@[simp] lemma resetDragState_total (s : CState) :
    (resetDragState s).total = s.total := rfl

@[simp] lemma resetDragState_trackPosition (s : CState) :
    (resetDragState s).trackPosition = s.trackPosition := rfl

@[simp] lemma resetDragState_isAnimating (s : CState) :
    (resetDragState s).isAnimating = s.isAnimating := rfl

@[simp] lemma resetDragState_navCount (s : CState) :
    (resetDragState s).navCount = s.navCount := rfl

@[simp] lemma resetDragState_allowTransition (s : CState) :
    (resetDragState s).allowTransition = s.allowTransition := rfl

@[simp] lemma resetDragState_dragOffset (s : CState) :
    (resetDragState s).dragOffset = 0 := rfl

@[simp] lemma resetDragState_isDragging (s : CState) :
    (resetDragState s).isDragging = false := rfl

@[simp] lemma resetDragState_isPointerDown (s : CState) :
    (resetDragState s).isPointerDown = false := rfl

@[simp] lemma resetDragState_pointerId (s : CState) :
    (resetDragState s).pointerId = none := rfl

@[simp] lemma goNext_total (s : CState) : (goNext s).total = s.total := by
  unfold goNext; split <;> [rfl; skip]; split <;> [rfl; skip]; split <;> rfl

@[simp] lemma goPrev_total (s : CState) : (goPrev s).total = s.total := by
  unfold goPrev; split <;> [rfl; skip]; split <;> [rfl; skip]; split <;> rfl

@[simp] lemma goNext_isModalOpen (s : CState) :
    (goNext s).isModalOpen = s.isModalOpen := by
  unfold goNext; split <;> [rfl; skip]; split <;> [rfl; skip]; split <;> rfl

@[simp] lemma goPrev_isModalOpen (s : CState) :
    (goPrev s).isModalOpen = s.isModalOpen := by
  unfold goPrev; split <;> [rfl; skip]; split <;> [rfl; skip]; split <;> rfl

@[simp] lemma goNext_isDragging (s : CState) :
    (goNext s).isDragging = s.isDragging := by
  unfold goNext; split <;> [rfl; skip]; split <;> [rfl; skip]; split <;> rfl

@[simp] lemma goPrev_isDragging (s : CState) :
    (goPrev s).isDragging = s.isDragging := by
  unfold goPrev; split <;> [rfl; skip]; split <;> [rfl; skip]; split <;> rfl

@[simp] lemma goNext_isPointerDown (s : CState) :
    (goNext s).isPointerDown = s.isPointerDown := by
  unfold goNext; split <;> [rfl; skip]; split <;> [rfl; skip]; split <;> rfl

@[simp] lemma goPrev_isPointerDown (s : CState) :
    (goPrev s).isPointerDown = s.isPointerDown := by
  unfold goPrev; split <;> [rfl; skip]; split <;> [rfl; skip]; split <;> rfl

@[simp] lemma goNext_pointerId (s : CState) :
    (goNext s).pointerId = s.pointerId := by
  unfold goNext; split <;> [rfl; skip]; split <;> [rfl; skip]; split <;> rfl

@[simp] lemma goPrev_pointerId (s : CState) :
    (goPrev s).pointerId = s.pointerId := by
  unfold goPrev; split <;> [rfl; skip]; split <;> [rfl; skip]; split <;> rfl

lemma goNext_currentIndex_lt (s : CState) (h : s.currentIndex < s.total) :
    (goNext s).currentIndex < s.total := by
  unfold goNext
  split
  · exact h
  · split
    · exact h
    · split
      · exact h
      · simp only []
        omega

lemma goPrev_currentIndex_lt (s : CState) (h : s.currentIndex < s.total) :
    (goPrev s).currentIndex < s.total := by
  unfold goPrev
  split
  · exact h
  · split
    · exact h
    · split
      · exact h
      · simp only []
        omega

@[simp] lemma applyNavs_nil (s : CState) : applyNavs s [] = s := rfl

@[simp] lemma applyNavs_cons (s : CState) (n : Nav) (t : List Nav) :
    applyNavs s (n :: t) = applyNavs (applyNav s n) t := rfl

lemma applyNav_total (s : CState) (n : Nav) : (applyNav s n).total = s.total := by
  cases n <;> simp [applyNav]

lemma applyNav_index_lt (s : CState) (n : Nav) (h : s.currentIndex < s.total) :
    (applyNav s n).currentIndex < s.total := by
  cases n
  · exact goNext_currentIndex_lt s h
  · exact goPrev_currentIndex_lt s h

lemma applyNavs_total (s : CState) (l : List Nav) :
    (applyNavs s l).total = s.total := by
  induction l generalizing s with
  | nil => rfl
  | cons n t ih => rw [applyNavs_cons, ih, applyNav_total]

lemma applyNavs_index_lt (s : CState) (l : List Nav)
    (h : s.currentIndex < s.total) :
    (applyNavs s l).currentIndex < s.total := by
  induction l generalizing s with
  | nil => exact h
  | cons n t ih =>
      rw [applyNavs_cons]
      have h1 := applyNav_index_lt s n h
      rw [← applyNav_total s n] at h1
      have h2 := ih (applyNav s n) h1
      rw [applyNav_total] at h2
      exact h2

lemma goNext_last (s : CState) (h : s.currentIndex + 1 = s.total) :
    goNext s = s := by
  unfold goNext
  split
  · rfl
  · split
    · rfl
    · split
      · rfl
      · exfalso; omega

lemma goPrev_first (s : CState) (h : s.currentIndex = 0) : goPrev s = s := by
  unfold goPrev
  split
  · rfl
  · split
    · rfl
    · simp [h]

/-! ### The claims -/

/-- C1: for every carousel state with a valid index and every sequence of
`goNext`/`goPrev` calls, the current index stays within `[0, count-1]`
(the index is a natural number, so the lower bound is inherent);
`goNext` at the last index and `goPrev` at index 0 leave the entire
state unchanged, so navigation never wraps to the opposite end. -/
theorem nav_index_bounded (s : CState) (l : List Nav)
    (h : s.currentIndex < s.total) :
    (applyNavs s l).currentIndex < (applyNavs s l).total ∧
    (applyNavs s l).total = s.total ∧
    (s.currentIndex + 1 = s.total → goNext s = s) ∧
    (s.currentIndex = 0 → goPrev s = s) := by
  refine ⟨?_, applyNavs_total s l, goNext_last s, goPrev_first s⟩
  rw [applyNavs_total]
  exact applyNavs_index_lt s l h

/-- Witness for C1 at 3 slides, index 2, walking next-next-prev. -/
theorem nav_index_bounded_witness :
    (applyNavs { initState 3 true with currentIndex := 2 }
        [Nav.next, Nav.next, Nav.prev]).currentIndex <
      (applyNavs { initState 3 true with currentIndex := 2 }
        [Nav.next, Nav.next, Nav.prev]).total ∧
    (applyNavs { initState 3 true with currentIndex := 2 }
        [Nav.next, Nav.next, Nav.prev]).total =
      ({ initState 3 true with currentIndex := 2 } : CState).total ∧
    (({ initState 3 true with currentIndex := 2 } : CState).currentIndex + 1 =
        ({ initState 3 true with currentIndex := 2 } : CState).total →
      goNext { initState 3 true with currentIndex := 2 } =
        { initState 3 true with currentIndex := 2 }) ∧
    (({ initState 3 true with currentIndex := 2 } : CState).currentIndex = 0 →
      goPrev { initState 3 true with currentIndex := 2 } =
        { initState 3 true with currentIndex := 2 }) :=
  nav_index_bounded { initState 3 true with currentIndex := 2 }
    [Nav.next, Nav.next, Nav.prev] (by decide)

/-- C6: while a session-start request is in flight, a further confirm
invocation is a no-op: the whole run returns the state unchanged (so no
additional fetch is issued and `requestCount` is unchanged), and already
its synchronous prefix changes nothing. -/
theorem confirmStart_busy_noop (s : CState) (r : FetchResult)
    (h : s.isStartingSession = true) :
    confirmStart r s = s ∧ confirmBegin s = s := by
  constructor <;> simp [confirmStart, confirmBegin, h]

/-- Witness for C6 on a busy state and a failure response. -/
theorem confirmStart_busy_noop_witness :
    confirmStart (FetchResult.failure "boom")
        { initState 2 true with isStartingSession := true, isModalOpen := true } =
      { initState 2 true with isStartingSession := true, isModalOpen := true } ∧
    confirmBegin
        { initState 2 true with isStartingSession := true, isModalOpen := true } =
      { initState 2 true with isStartingSession := true, isModalOpen := true } :=
  confirmStart_busy_noop _ _ rfl

/-- C8: while a session-start request is in flight, `closeModal` is a
no-op (the state is unchanged, so the modal and error text stay as they
are), and the Escape key handler routed through it changes nothing
either. -/
theorem closeModal_busy_noop (s : CState) (h : s.isStartingSession = true) :
    closeModal s = s ∧ handleKeydown Key.escape false s = s := by
  have hc : closeModal s = s := by simp [closeModal, h]
  refine ⟨hc, ?_⟩
  simp only [handleKeydown]
  split
  · rfl
  · split
    · exact hc
    · rfl

/-- Witness for C8 on a busy open modal with an error displayed. -/
theorem closeModal_busy_noop_witness :
    closeModal
        { initState 2 true with isStartingSession := true, isModalOpen := true,
                                modalError := "Camera offline" } =
      { initState 2 true with isStartingSession := true, isModalOpen := true,
                              modalError := "Camera offline" } ∧
    handleKeydown Key.escape false
        { initState 2 true with isStartingSession := true, isModalOpen := true,
                                modalError := "Camera offline" } =
      { initState 2 true with isStartingSession := true, isModalOpen := true,
                              modalError := "Camera offline" } :=
  closeModal_busy_noop _ rfl

@[simp] lemma openModal_currentIndex (s : CState) :
    (openModal s).currentIndex = s.currentIndex := by
  unfold openModal; split <;> rfl

@[simp] lemma openModal_trackPosition (s : CState) :
    (openModal s).trackPosition = s.trackPosition := by
  unfold openModal; split <;> rfl

@[simp] lemma openModal_isAnimating (s : CState) :
    (openModal s).isAnimating = s.isAnimating := by
  unfold openModal; split <;> rfl

@[simp] lemma openModal_navCount (s : CState) :
    (openModal s).navCount = s.navCount := by
  unfold openModal; split <;> rfl

@[simp] lemma openModal_total (s : CState) :
    (openModal s).total = s.total := by
  unfold openModal; split <;> rfl

@[simp] lemma openModal_isModalOpen (s : CState) :
    (openModal s).isModalOpen = true := by
  unfold openModal; split <;> simp_all

@[simp] lemma openModal_isDragging (s : CState) :
    (openModal s).isDragging = s.isDragging := by
  unfold openModal; split <;> rfl

@[simp] lemma openModal_isPointerDown (s : CState) :
    (openModal s).isPointerDown = s.isPointerDown := by
  unfold openModal; split <;> rfl

@[simp] lemma openModal_pointerId (s : CState) :
    (openModal s).pointerId = s.pointerId := by
  unfold openModal; split <;> rfl

@[simp] lemma openModal_dragOffset (s : CState) :
    (openModal s).dragOffset = s.dragOffset := by
  unfold openModal; split <;> rfl

/-- C3 (amended): releasing a pointer whose total horizontal displacement
magnitude is at most 20 pixels opens the confirmation modal exactly once
(the release leaves it open if it already was) and never navigates —
current index, track position and animation flag are untouched — provided
the dynamic navigation threshold min(160, 25% of container width) exceeds
20 pixels (in scaled quarter-pixels: `80 < pointerThreshold4`), which
holds whenever the container is wider than 80 pixels or unmeasured. -/
theorem tap_opens_modal (s : CState) (x : Int)
    (hp : s.isPointerDown = true)
    (hsmall : (x - s.dragStartX).natAbs ≤ 20)
    (hth : 80 < pointerThreshold4 s) :
    (handlePointerUp x s).isModalOpen = true ∧
    (handlePointerUp x s).currentIndex = s.currentIndex ∧
    (handlePointerUp x s).trackPosition = s.trackPosition ∧
    (handlePointerUp x s).isAnimating = s.isAnimating ∧
    (handlePointerUp x s).navCount = s.navCount := by
  have hth2 : 4 * (x - s.dragStartX).natAbs < pointerThreshold4 s := by omega
  simp only [handlePointerUp, triggerNavigationForDrag, hp]
  split_ifs <;> simp_all

lemma goNext_step (s : CState) (ha : s.isAnimating = false)
    (hr : s.hasReal = true) (h : s.currentIndex + 1 < s.total) :
    (goNext s).currentIndex = s.currentIndex + 1 := by
  unfold goNext
  split
  · rename_i hc
    rcases hc with hc | hc
    · exact absurd hr hc
    · omega
  · split
    · simp_all
    · split
      · omega
      · rfl

lemma goPrev_step (s : CState) (ha : s.isAnimating = false)
    (hr : s.hasReal = true) (ht : 2 ≤ s.total) (h : 0 < s.currentIndex) :
    (goPrev s).currentIndex = s.currentIndex - 1 := by
  unfold goPrev
  split
  · rename_i hc
    rcases hc with hc | hc
    · exact absurd hr hc
    · omega
  · split
    · simp_all
    · split
      · omega
      · rfl

lemma pointerThreshold4_pos (s : CState) : 0 < pointerThreshold4 s := by
  unfold pointerThreshold4
  split
  · omega
  · rename_i hw
    simp only [lt_min_iff]
    omega

lemma trigger_nav_next (deltaX : Int) (s : CState)
    (hr : s.hasReal = true) (ht : 2 ≤ s.total)
    (hth : pointerThreshold4 s ≤ 4 * deltaX.natAbs) (hneg : deltaX < 0) :
    triggerNavigationForDrag deltaX s = (goNext s, true) := by
  unfold triggerNavigationForDrag
  rw [if_neg (by simp [hr]; omega), if_neg (by omega), if_pos hneg]

lemma trigger_nav_prev (deltaX : Int) (s : CState)
    (hr : s.hasReal = true) (ht : 2 ≤ s.total)
    (hth : pointerThreshold4 s ≤ 4 * deltaX.natAbs) (hpos : 0 < deltaX) :
    triggerNavigationForDrag deltaX s = (goPrev s, true) := by
  unfold triggerNavigationForDrag
  rw [if_neg (by simp [hr]; omega), if_neg (by omega), if_neg (by omega)]

/-- C2 (amended): releasing a pointer while dragging mode is engaged,
with total displacement magnitude at least the dynamic threshold
min(160, 25% of container width) (scaled: `pointerThreshold4 ≤ 4*|Δ|`),
never opens the confirmation modal and dispatches `goNext` for leftward
or `goPrev` for rightward displacement; the index actually moves exactly
one step in that direction when the carousel is not mid-animation and
the start index is not already at the boundary in the displacement's
direction (at the boundary the dispatched call is a silent no-op, which
is what the counterexample exhibits). -/
theorem drag_navigates_one_step (s : CState) (x : Int)
    (hp : s.isPointerDown = true) (hd : s.isDragging = true)
    (hm : s.isModalOpen = false) (ha : s.isAnimating = false)
    (hr : s.hasReal = true) (ht : 2 ≤ s.total)
    (hth : pointerThreshold4 s ≤ 4 * (x - s.dragStartX).natAbs) :
    (handlePointerUp x s).isModalOpen = false ∧
    (x - s.dragStartX < 0 → s.currentIndex + 1 < s.total →
      (handlePointerUp x s).currentIndex = s.currentIndex + 1) ∧
    (0 < x - s.dragStartX → 0 < s.currentIndex →
      (handlePointerUp x s).currentIndex = s.currentIndex - 1) := by
  have hsign : x - s.dragStartX < 0 ∨ 0 < x - s.dragStartX := by
    have := pointerThreshold4_pos s
    omega
  have hup : handlePointerUp x s =
      resetCursorTimer (resetDragState
        (if x - s.dragStartX < 0 then goNext s else goPrev s)) := by
    rcases hsign with hneg | hpos
    · simp only [handlePointerUp, hp, hd,
        trigger_nav_next (x - s.dragStartX) s hr ht hth hneg]
      simp [hm, hneg]
    · simp only [handlePointerUp, hp, hd,
        trigger_nav_prev (x - s.dragStartX) s hr ht hth hpos]
      simp [hm]
      rw [if_neg (by omega)]
  rw [hup]
  refine ⟨?_, ?_, ?_⟩
  · rcases hsign with hneg | hpos
    · simp only [resetCursorTimer_isModalOpen, resetDragState_isModalOpen]
      rw [if_pos hneg, goNext_isModalOpen]
      exact hm
    · simp only [resetCursorTimer_isModalOpen, resetDragState_isModalOpen]
      rw [if_neg (by omega : ¬(x - s.dragStartX < 0)), goPrev_isModalOpen]
      exact hm
  · intro hneg hroom
    simp only [resetCursorTimer_currentIndex, resetDragState_currentIndex]
    rw [if_pos hneg]
    exact goNext_step s ha hr hroom
  · intro hpos hroom
    simp only [resetCursorTimer_currentIndex, resetDragState_currentIndex]
    rw [if_neg (by omega : ¬(x - s.dragStartX < 0))]
    exact goPrev_step s ha hr ht hroom

/-- C4 (amended): a pointer-cancel during a gesture aborts it: the
transition animation is re-enabled, the drag offset and drag flags are
cleared and the pointer id dropped, while index, modal, animation flag
and navigation count are untouched — so cancel never navigates and never
opens the modal.  A pointer-leave, however, does not abort: it delegates
to the pointer-up handler verbatim, so it can navigate or open the modal
exactly as a release would (the counterexample exhibits this). -/
theorem cancel_aborts_leave_delegates (s : CState) (x : Int)
    (hp : s.isPointerDown = true) :
    (handlePointerCancel s).allowTransition = true ∧
    (handlePointerCancel s).dragOffset = 0 ∧
    (handlePointerCancel s).isDragging = false ∧
    (handlePointerCancel s).isPointerDown = false ∧
    (handlePointerCancel s).pointerId = none ∧
    (handlePointerCancel s).currentIndex = s.currentIndex ∧
    (handlePointerCancel s).isModalOpen = s.isModalOpen ∧
    (handlePointerCancel s).isAnimating = s.isAnimating ∧
    (handlePointerCancel s).navCount = s.navCount ∧
    handlePointerLeave x s = handlePointerUp x s := by
  have hc : handlePointerCancel s =
      resetCursorTimer (resetDragState
        { s with allowTransition := true, dragOffset := 0 }) := by
    unfold handlePointerCancel
    rw [if_neg (by simp [hp])]
  have hl : handlePointerLeave x s = handlePointerUp x s := by
    unfold handlePointerLeave
    rw [if_neg (by simp [hp])]
  rw [hc]
  refine ⟨?_, ?_, ?_, ?_, ?_, ?_, ?_, ?_, ?_, hl⟩ <;> simp

/-- C9 (amended): while the modal is open, pointer-down and pointer-move
events are ignored (the state is returned unchanged, so no drag can
engage) and ArrowRight/ArrowLeft key presses never navigate; a gesture
begun while the modal is open can never trigger navigation, because the
ignored pointer-down leaves the pointer-down flag false and pointer-up
and pointer-leave are then no-ops.  A drag engaged before the modal
opened is not covered: its release can still navigate (see the
counterexample). -/
theorem modal_blocks_gestures (s : CState) (x : Int) (pid : Nat)
    (hm : s.isModalOpen = true) :
    handlePointerDown x pid s = s ∧
    handlePointerMove x s = s ∧
    handleKeydown Key.arrowRight false s = s ∧
    handleKeydown Key.arrowLeft false s = s ∧
    (s.isPointerDown = false →
      handlePointerUp x s = s ∧ handlePointerLeave x s = s) := by
  refine ⟨?_, ?_, ?_, ?_, ?_⟩
  · unfold handlePointerDown
    rw [if_pos hm]
  · unfold handlePointerMove
    rw [if_pos (Or.inr hm)]
  · simp [handleKeydown, hm]
  · simp [handleKeydown, hm]
  · intro hpd
    constructor
    · unfold handlePointerUp
      rw [if_pos (by simp [hpd])]
    · unfold handlePointerLeave
      rw [if_pos (by simp [hpd])]

/-- Drag state is benign whenever no pointer is down. -/
def dragIdleInv (s : CState) : Prop :=
  s.isPointerDown = false →
    s.dragOffset = 0 ∧ s.isDragging = false ∧ s.pointerId = none

/-- The drag state is fully reset. -/
def dragCleared (s : CState) : Prop :=
  s.dragOffset = 0 ∧ s.isDragging = false ∧ s.isPointerDown = false ∧
    s.pointerId = none

lemma dragCleared_rr (t : CState) :
    dragCleared (resetCursorTimer (resetDragState t)) := by
  simp [dragCleared]

lemma dragCleared_of_idle (s : CState) (h : dragIdleInv s)
    (hp : s.isPointerDown = false) : dragCleared s :=
  ⟨(h hp).1, (h hp).2.1, hp, (h hp).2.2⟩

lemma dragCleared_handlePointerUp (x : Int) (s : CState) (h : dragIdleInv s) :
    dragCleared (handlePointerUp x s) := by
  by_cases hp : s.isPointerDown = true
  · unfold handlePointerUp
    rw [if_neg (by simp [hp])]
    exact dragCleared_rr _
  · unfold handlePointerUp
    rw [if_pos (by simp_all)]
    exact dragCleared_of_idle s h (by simp_all)

lemma dragCleared_handlePointerCancel (s : CState) (h : dragIdleInv s) :
    dragCleared (handlePointerCancel s) := by
  by_cases hp : s.isPointerDown = true
  · unfold handlePointerCancel
    rw [if_neg (by simp [hp])]
    exact dragCleared_rr _
  · unfold handlePointerCancel
    rw [if_pos (by simp_all)]
    exact dragCleared_of_idle s h (by simp_all)

lemma dragCleared_handlePointerLeave (x : Int) (s : CState)
    (h : dragIdleInv s) : dragCleared (handlePointerLeave x s) := by
  by_cases hp : s.isPointerDown = true
  · unfold handlePointerLeave
    rw [if_neg (by simp [hp])]
    exact dragCleared_handlePointerUp x s h
  · unfold handlePointerLeave
    rw [if_pos (by simp_all)]
    exact dragCleared_of_idle s h (by simp_all)

lemma dragIdleInv_of_cleared (s : CState) (h : dragCleared s) :
    dragIdleInv s := fun _ => ⟨h.1, h.2.1, h.2.2.2⟩

lemma goNext_dragIdle (s : CState) (h : dragIdleInv s) :
    dragIdleInv (goNext s) := by
  unfold goNext
  split_ifs <;> simp_all [dragIdleInv]

lemma goPrev_dragIdle (s : CState) (h : dragIdleInv s) :
    dragIdleInv (goPrev s) := by
  unfold goPrev
  split_ifs <;> simp_all [dragIdleInv]

lemma openModal_dragIdle (s : CState) (h : dragIdleInv s) :
    dragIdleInv (openModal s) := by
  unfold openModal
  split_ifs <;> simp_all [dragIdleInv]

lemma closeModal_dragIdle (s : CState) (h : dragIdleInv s) :
    dragIdleInv (closeModal s) := by
  unfold closeModal resetCursorTimer
  split_ifs <;> simp_all [dragIdleInv]

lemma confirmBegin_dragIdle (s : CState) (h : dragIdleInv s) :
    dragIdleInv (confirmBegin s) := by
  unfold confirmBegin
  split_ifs <;> simp_all [dragIdleInv]

lemma resolveConfirm_dragIdle (r : FetchResult) (s : CState)
    (h : dragIdleInv s) : dragIdleInv (resolveConfirm r s) := by
  cases r with
  | failure m => simp_all [resolveConfirm, dragIdleInv]
  | response st msg =>
      by_cases hok : responseOk st = true <;>
        simp_all [resolveConfirm, dragIdleInv]

lemma handlePointerMove_isPointerDown (y : Int) (s : CState) :
    (handlePointerMove y s).isPointerDown = s.isPointerDown := by
  simp only [handlePointerMove]
  split_ifs <;> rfl

lemma handlePointerMove_dragIdle (y : Int) (s : CState) (h : dragIdleInv s) :
    dragIdleInv (handlePointerMove y s) := by
  by_cases hg : ¬s.isPointerDown = true ∨ s.isModalOpen = true
  · unfold handlePointerMove
    rw [if_pos hg]
    exact h
  · intro hpd
    rw [handlePointerMove_isPointerDown] at hpd
    simp only [not_or, Bool.not_eq_true] at hg
    exact absurd hpd hg.1

lemma handlePointerDown_dragIdle (y : Int) (pid : Nat) (s : CState)
    (h : dragIdleInv s) : dragIdleInv (handlePointerDown y pid s) := by
  unfold handlePointerDown
  split_ifs with hm
  · exact h
  · intro hpd
    simp at hpd

/-- C10: on any state whose drag fields are benign while no pointer is
down, every event preserves that invariant, and pointer-up,
pointer-cancel and pointer-leave always complete with the drag state
fully reset: drag offset 0, dragging and pointer-down flags false, and
the stored pointer id cleared. -/
theorem drag_state_reset (s : CState) (e : Event) (x : Int)
    (h : dragIdleInv s) :
    dragIdleInv (step e s) ∧
    dragCleared (step (Event.pointerUp x) s) ∧
    dragCleared (step Event.pointerCancel s) ∧
    dragCleared (step (Event.pointerLeave x) s) := by
  refine ⟨?_, dragCleared_handlePointerUp x s h,
    dragCleared_handlePointerCancel s h,
    dragCleared_handlePointerLeave x s h⟩
  cases e with
  | pointerDown y pid =>
      exact handlePointerDown_dragIdle y pid s h
  | pointerMove y =>
      exact handlePointerMove_dragIdle y s h
  | pointerUp y =>
      exact dragIdleInv_of_cleared _ (dragCleared_handlePointerUp y s h)
  | pointerCancel =>
      exact dragIdleInv_of_cleared _ (dragCleared_handlePointerCancel s h)
  | pointerLeave y =>
      exact dragIdleInv_of_cleared _ (dragCleared_handlePointerLeave y s h)
  | keydown k rep =>
      simp only [step]
      unfold handleKeydown
      cases k <;> split_ifs <;>
        first
          | exact h
          | exact goNext_dragIdle s h
          | exact goPrev_dragIdle s h
          | exact openModal_dragIdle s h
          | exact closeModal_dragIdle s h
          | exact confirmBegin_dragIdle s h
  | transitionEnd =>
      simp only [step]
      unfold finishTransitionIfNeeded
      split_ifs <;> simp_all [dragIdleInv]
  | resolve r =>
      simp only [step]
      split_ifs with hb
      · exact resolveConfirm_dragIdle r s h
      · exact h
  | resize w =>
      simp only [step]
      intro hpd
      exact h hpd

/-- C5 (amended): a settled session-start request, issued from an open
modal with no request already in flight, behaves as follows.  On a
transport failure the modal stays open and shows the thrown error's
message (or the generic unexpected-error text when empty) and no
navigation happens.  On a non-2xx response the modal stays open and
shows the server-supplied `message` when present and non-empty, and the
generic fallback otherwise — an empty `message` falls back to the
generic text by JS truthiness.  On a 2xx response the modal closes,
exactly one navigation to the photo-session screen is requested, and
exactly one fetch was issued. -/
theorem confirmStart_outcome (s : CState) (r : FetchResult)
    (hbusy : s.isStartingSession = false) (hopen : s.isModalOpen = true) :
    match r with
    | .failure m =>
        (confirmStart r s).isModalOpen = true ∧
        (confirmStart r s).modalError =
          (if m = "" then unexpectedMessage else m) ∧
        (confirmStart r s).navCount = s.navCount
    | .response st msg =>
        if responseOk st = true then
          (confirmStart r s).isModalOpen = false ∧
          (confirmStart r s).navCount = s.navCount + 1 ∧
          (confirmStart r s).requestCount = s.requestCount + 1
        else
          (confirmStart r s).isModalOpen = true ∧
          (confirmStart r s).modalError =
            (match msg with
             | some m => if m = "" then fallbackMessage else m
             | none => fallbackMessage) ∧
          (confirmStart r s).navCount = s.navCount := by
  cases r with
  | failure m =>
      simp [confirmStart, confirmBegin, resolveConfirm, hbusy, hopen]
  | response st msg =>
      by_cases hok : responseOk st = true
      · simp [confirmStart, confirmBegin, resolveConfirm, hbusy, hok]
      · cases msg <;>
          simp [confirmStart, confirmBegin, resolveConfirm, hbusy, hopen, hok]

/-- C5 witness: HTTP 500 with body message "Camera offline" leaves the
modal open showing "Camera offline" and requests no navigation. -/
theorem confirmStart_outcome_witness :
    (confirmStart (FetchResult.response 500 (some "Camera offline"))
        { initState 2 true with isModalOpen := true }).isModalOpen = true ∧
    (confirmStart (FetchResult.response 500 (some "Camera offline"))
        { initState 2 true with isModalOpen := true }).modalError =
      "Camera offline" ∧
    (confirmStart (FetchResult.response 500 (some "Camera offline"))
        { initState 2 true with isModalOpen := true }).navCount =
      ({ initState 2 true with isModalOpen := true } : CState).navCount := by
  have h := confirmStart_outcome { initState 2 true with isModalOpen := true }
    (FetchResult.response 500 (some "Camera offline")) rfl rfl
  simpa [responseOk] using h

/-- C5 counterexample: a 500 response whose body carries a present but
empty `message` field displays the generic fallback text, not the
server-supplied empty string. -/
theorem confirmStart_empty_message_cex :
    (confirmStart (FetchResult.response 500 (some ""))
        { initState 2 true with isModalOpen := true }).modalError =
      fallbackMessage ∧ fallbackMessage ≠ "" := by
  constructor
  · rfl
  · decide

/-- C7: one preload step keeps the cache within its 50-entry bound, an
insertion that would exceed the bound evicts the earliest-inserted entry
(the head of the insertion-ordered list), and a source already present
is never requested again (the step returns the cache unchanged with no
request).  The truthiness guard on the evicted entry makes the bound
depend on entries being non-empty strings, which the slide builder
guarantees (it filters out falsy URLs). -/
theorem preloadStep_bounded (cache : List String) (slide : Slide)
    (hlen : cache.length ≤ maxPreloadCacheSize)
    (hne : "" ∉ cache) (hsrc : slide.src ≠ "") :
    (preloadStep cache slide).1.length ≤ maxPreloadCacheSize ∧
    "" ∉ (preloadStep cache slide).1 ∧
    (slide.src ∈ cache → preloadStep cache slide = (cache, false)) ∧
    (slide.kind = SlideKind.image → slide.src ∉ cache →
      (preloadStep cache slide).2 = true ∧
      (preloadStep cache slide).1 =
        (if cache.length = maxPreloadCacheSize
         then (cache ++ [slide.src]).tail
         else cache ++ [slide.src])) := by
  by_cases hc : slide.kind = SlideKind.image ∧ slide.src ∉ cache
  · simp only [preloadStep, if_pos hc]
    by_cases hfull : maxPreloadCacheSize < (cache ++ [slide.src]).length
    · have h50 : cache.length = maxPreloadCacheSize := by
        simp only [List.length_append, List.length_singleton] at hfull
        omega
      cases cache with
      | nil =>
        rw [List.length_nil] at h50
        simp [maxPreloadCacheSize] at h50
      | cons h0 t =>
        have hh0 : h0 ≠ "" := by
          intro he
          exact hne (he ▸ List.mem_cons_self h0 t)
        rw [if_pos hfull]
        simp only [List.cons_append, List.head?_cons, List.tail_cons]
        rw [if_neg hh0]
        refine ⟨?_, ?_, ?_, ?_⟩
        · simp only [List.length_append, List.length_singleton]
          simp only [List.length_cons] at h50
          omega
        · intro hmem
          rcases List.mem_append.mp hmem with hmo | hms
          · exact hne (List.mem_cons_of_mem h0 hmo)
          · exact hsrc ((List.mem_singleton.mp hms).symm)
        · intro hmem
          exact absurd hmem hc.2
        · intro _ _
          refine ⟨trivial, ?_⟩
          rw [if_pos h50]
    · rw [if_neg hfull]
      simp only [List.length_append, List.length_singleton] at hfull
      refine ⟨?_, ?_, ?_, ?_⟩
      · simp only [List.length_append, List.length_singleton]
        omega
      · intro hmem
        rcases List.mem_append.mp hmem with hmo | hms
        · exact hne hmo
        · exact hsrc ((List.mem_singleton.mp hms).symm)
      · intro hmem
        exact absurd hmem hc.2
      · intro _ _
        refine ⟨trivial, ?_⟩
        rw [if_neg (by omega)]
  · simp only [preloadStep, if_neg hc]
    refine ⟨hlen, hne, fun _ => True.intro, ?_⟩
    intro hk hm
    exact absurd ⟨hk, hm⟩ hc

/-- C7 witness: a non-full cache gains the new source at the end with a
request issued; a cached source is skipped. -/
theorem preloadStep_bounded_witness :
    (preloadStep ["a"] ⟨SlideKind.image, "b"⟩).1.length ≤ maxPreloadCacheSize ∧
    "" ∉ (preloadStep ["a"] ⟨SlideKind.image, "b"⟩).1 ∧
    ("b" ∈ (["a"] : List String) →
      preloadStep ["a"] ⟨SlideKind.image, "b"⟩ = (["a"], false)) ∧
    (SlideKind.image = SlideKind.image → "b" ∉ (["a"] : List String) →
      (preloadStep ["a"] ⟨SlideKind.image, "b"⟩).2 = true ∧
      (preloadStep ["a"] ⟨SlideKind.image, "b"⟩).1 =
        (if (["a"] : List String).length = maxPreloadCacheSize
         then ((["a"] : List String) ++ ["b"]).tail
         else (["a"] : List String) ++ ["b"])) :=
  preloadStep_bounded ["a"] ⟨SlideKind.image, "b"⟩ (by decide) (by decide)
    (by decide)

/-- C2 counterexample: 2 slides, container 600px (threshold 150px), at
the last index (1) a leftward drag of 200px is released; the claim
requires navigating exactly one step, but `goNext` at the last index is
a silent no-op, so the index stays 1 (the modal does stay closed). -/
theorem drag_at_last_index_cex :
    (run (initState 2 true)
        [Event.resize 600, Event.keydown Key.arrowRight false,
         Event.transitionEnd, Event.pointerDown 0 1,
         Event.pointerMove (-200)]).currentIndex = 1 ∧
    (run (initState 2 true)
        [Event.resize 600, Event.keydown Key.arrowRight false,
         Event.transitionEnd, Event.pointerDown 0 1,
         Event.pointerMove (-200)]).total = 2 ∧
    (run (initState 2 true)
        [Event.resize 600, Event.keydown Key.arrowRight false,
         Event.transitionEnd, Event.pointerDown 0 1, Event.pointerMove (-200),
         Event.pointerUp (-200)]).currentIndex = 1 ∧
    (run (initState 2 true)
        [Event.resize 600, Event.keydown Key.arrowRight false,
         Event.transitionEnd, Event.pointerDown 0 1, Event.pointerMove (-200),
         Event.pointerUp (-200)]).isModalOpen = false := by
  decide

/-- C2 witness: 2 slides at index 0, engaged drag of -200px on a 600px
container; the release navigates to index 1 and keeps the modal closed. -/
theorem drag_navigates_one_step_witness :
    (handlePointerUp (-200)
        (run (initState 2 true)
          [Event.resize 600, Event.pointerDown 0 1,
           Event.pointerMove (-200)])).isModalOpen = false ∧
    ((-200 : Int) -
        (run (initState 2 true)
          [Event.resize 600, Event.pointerDown 0 1,
           Event.pointerMove (-200)]).dragStartX < 0 →
      (run (initState 2 true)
          [Event.resize 600, Event.pointerDown 0 1,
           Event.pointerMove (-200)]).currentIndex + 1 <
        (run (initState 2 true)
          [Event.resize 600, Event.pointerDown 0 1,
           Event.pointerMove (-200)]).total →
      (handlePointerUp (-200)
          (run (initState 2 true)
            [Event.resize 600, Event.pointerDown 0 1,
             Event.pointerMove (-200)])).currentIndex =
        (run (initState 2 true)
          [Event.resize 600, Event.pointerDown 0 1,
           Event.pointerMove (-200)]).currentIndex + 1) ∧
    (0 < (-200 : Int) -
        (run (initState 2 true)
          [Event.resize 600, Event.pointerDown 0 1,
           Event.pointerMove (-200)]).dragStartX →
      0 < (run (initState 2 true)
          [Event.resize 600, Event.pointerDown 0 1,
           Event.pointerMove (-200)]).currentIndex →
      (handlePointerUp (-200)
          (run (initState 2 true)
            [Event.resize 600, Event.pointerDown 0 1,
             Event.pointerMove (-200)])).currentIndex =
        (run (initState 2 true)
          [Event.resize 600, Event.pointerDown 0 1,
           Event.pointerMove (-200)]).currentIndex - 1) :=
  drag_navigates_one_step
    (run (initState 2 true)
      [Event.resize 600, Event.pointerDown 0 1, Event.pointerMove (-200)])
    (-200) (by decide) (by decide) (by decide) (by decide) (by decide)
    (by decide) (by decide)

/-- C3 counterexample: container 80px makes the threshold 20px, so an
engaged drag released at a total displacement of exactly 20px (≤ 20)
navigates backwards (index 1 to 0) and never opens the modal, against
the claim that such a release opens the modal and never navigates. -/
theorem narrow_threshold_tap_cex :
    (run (initState 3 true)
        [Event.resize 80, Event.keydown Key.arrowRight false,
         Event.transitionEnd, Event.pointerDown 0 1, Event.pointerMove 25,
         Event.pointerMove 20]).currentIndex = 1 ∧
    (run (initState 3 true)
        [Event.resize 80, Event.keydown Key.arrowRight false,
         Event.transitionEnd, Event.pointerDown 0 1, Event.pointerMove 25,
         Event.pointerMove 20, Event.pointerUp 20]).currentIndex = 0 ∧
    (run (initState 3 true)
        [Event.resize 80, Event.keydown Key.arrowRight false,
         Event.transitionEnd, Event.pointerDown 0 1, Event.pointerMove 25,
         Event.pointerMove 20, Event.pointerUp 20]).isModalOpen = false := by
  decide

/-- C3 witness: a 5px tap on a 600px container opens the modal and
leaves the carousel untouched. -/
theorem tap_opens_modal_witness :
    (handlePointerUp 15
        (run (initState 2 true)
          [Event.resize 600, Event.pointerDown 10 1])).isModalOpen = true ∧
    (handlePointerUp 15
        (run (initState 2 true)
          [Event.resize 600, Event.pointerDown 10 1])).currentIndex =
      (run (initState 2 true)
        [Event.resize 600, Event.pointerDown 10 1]).currentIndex ∧
    (handlePointerUp 15
        (run (initState 2 true)
          [Event.resize 600, Event.pointerDown 10 1])).trackPosition =
      (run (initState 2 true)
        [Event.resize 600, Event.pointerDown 10 1]).trackPosition ∧
    (handlePointerUp 15
        (run (initState 2 true)
          [Event.resize 600, Event.pointerDown 10 1])).isAnimating =
      (run (initState 2 true)
        [Event.resize 600, Event.pointerDown 10 1]).isAnimating ∧
    (handlePointerUp 15
        (run (initState 2 true)
          [Event.resize 600, Event.pointerDown 10 1])).navCount =
      (run (initState 2 true)
        [Event.resize 600, Event.pointerDown 10 1]).navCount :=
  tap_opens_modal
    (run (initState 2 true) [Event.resize 600, Event.pointerDown 10 1])
    15 (by decide) (by decide) (by decide)

/-- C4 counterexample: with a pointer down and no movement, a
pointer-leave event opens the confirmation modal (it delegates to the
pointer-up handler, which treats the release as a tap), against the
claim that pointer-leave aborts without ever opening the modal. -/
theorem pointer_leave_opens_modal_cex :
    (run (initState 2 true)
        [Event.resize 600, Event.pointerDown 0 1]).isModalOpen = false ∧
    (run (initState 2 true)
        [Event.resize 600, Event.pointerDown 0 1,
         Event.pointerLeave 0]).isModalOpen = true := by
  decide

/-- C4 witness: cancelling an engaged -30px drag resets all drag state
and changes nothing else; pointer-leave on the same state equals
pointer-up. -/
theorem cancel_aborts_leave_delegates_witness :
    (handlePointerCancel
        (run (initState 2 true)
          [Event.resize 600, Event.pointerDown 0 1,
           Event.pointerMove (-30)])).allowTransition = true ∧
    (handlePointerCancel
        (run (initState 2 true)
          [Event.resize 600, Event.pointerDown 0 1,
           Event.pointerMove (-30)])).dragOffset = 0 ∧
    (handlePointerCancel
        (run (initState 2 true)
          [Event.resize 600, Event.pointerDown 0 1,
           Event.pointerMove (-30)])).isDragging = false ∧
    (handlePointerCancel
        (run (initState 2 true)
          [Event.resize 600, Event.pointerDown 0 1,
           Event.pointerMove (-30)])).isPointerDown = false ∧
    (handlePointerCancel
        (run (initState 2 true)
          [Event.resize 600, Event.pointerDown 0 1,
           Event.pointerMove (-30)])).pointerId = none ∧
    (handlePointerCancel
        (run (initState 2 true)
          [Event.resize 600, Event.pointerDown 0 1,
           Event.pointerMove (-30)])).currentIndex =
      (run (initState 2 true)
        [Event.resize 600, Event.pointerDown 0 1,
         Event.pointerMove (-30)]).currentIndex ∧
    (handlePointerCancel
        (run (initState 2 true)
          [Event.resize 600, Event.pointerDown 0 1,
           Event.pointerMove (-30)])).isModalOpen =
      (run (initState 2 true)
        [Event.resize 600, Event.pointerDown 0 1,
         Event.pointerMove (-30)]).isModalOpen ∧
    (handlePointerCancel
        (run (initState 2 true)
          [Event.resize 600, Event.pointerDown 0 1,
           Event.pointerMove (-30)])).isAnimating =
      (run (initState 2 true)
        [Event.resize 600, Event.pointerDown 0 1,
         Event.pointerMove (-30)]).isAnimating ∧
    (handlePointerCancel
        (run (initState 2 true)
          [Event.resize 600, Event.pointerDown 0 1,
           Event.pointerMove (-30)])).navCount =
      (run (initState 2 true)
        [Event.resize 600, Event.pointerDown 0 1,
         Event.pointerMove (-30)]).navCount ∧
    handlePointerLeave (-30)
        (run (initState 2 true)
          [Event.resize 600, Event.pointerDown 0 1,
           Event.pointerMove (-30)]) =
      handlePointerUp (-30)
        (run (initState 2 true)
          [Event.resize 600, Event.pointerDown 0 1,
           Event.pointerMove (-30)]) :=
  cancel_aborts_leave_delegates
    (run (initState 2 true)
      [Event.resize 600, Event.pointerDown 0 1, Event.pointerMove (-30)])
    (-30) (by decide)

/-- C9 counterexample: a drag engages while the modal is closed, Enter
then opens the modal, and the subsequent pointer-up still navigates
(index 0 to 1) although the modal is open throughout the release. -/
theorem modal_open_drag_navigates_cex :
    (run (initState 2 true)
        [Event.resize 600, Event.pointerDown 0 1, Event.pointerMove (-30),
         Event.pointerMove (-200),
         Event.keydown Key.enter false]).isModalOpen = true ∧
    (run (initState 2 true)
        [Event.resize 600, Event.pointerDown 0 1, Event.pointerMove (-30),
         Event.pointerMove (-200),
         Event.keydown Key.enter false]).currentIndex = 0 ∧
    (run (initState 2 true)
        [Event.resize 600, Event.pointerDown 0 1, Event.pointerMove (-30),
         Event.pointerMove (-200), Event.keydown Key.enter false,
         Event.pointerUp (-200)]).isModalOpen = true ∧
    (run (initState 2 true)
        [Event.resize 600, Event.pointerDown 0 1, Event.pointerMove (-30),
         Event.pointerMove (-200), Event.keydown Key.enter false,
         Event.pointerUp (-200)]).currentIndex = 1 := by
  decide

/-- C9 witness: with the modal open and no pointer down, pointer-down,
pointer-move, the arrow keys, pointer-up and pointer-leave all leave the
state unchanged. -/
theorem modal_blocks_gestures_witness :
    handlePointerDown 5 1 { initState 2 true with isModalOpen := true } =
      { initState 2 true with isModalOpen := true } ∧
    handlePointerMove 5 { initState 2 true with isModalOpen := true } =
      { initState 2 true with isModalOpen := true } ∧
    handleKeydown Key.arrowRight false
        { initState 2 true with isModalOpen := true } =
      { initState 2 true with isModalOpen := true } ∧
    handleKeydown Key.arrowLeft false
        { initState 2 true with isModalOpen := true } =
      { initState 2 true with isModalOpen := true } ∧
    (({ initState 2 true with isModalOpen := true } : CState).isPointerDown =
        false →
      handlePointerUp 5 { initState 2 true with isModalOpen := true } =
          { initState 2 true with isModalOpen := true } ∧
        handlePointerLeave 5 { initState 2 true with isModalOpen := true } =
          { initState 2 true with isModalOpen := true }) :=
  modal_blocks_gestures { initState 2 true with isModalOpen := true } 5 1 rfl

/-- C10 witness: the freshly mounted state satisfies the idle-drag
invariant; a pointer-move preserves it, and pointer-up, pointer-cancel
and pointer-leave leave the drag state fully reset. -/
theorem drag_state_reset_witness :
    dragIdleInv (step (Event.pointerMove 5) (initState 2 true)) ∧
    dragCleared (step (Event.pointerUp 7) (initState 2 true)) ∧
    dragCleared (step Event.pointerCancel (initState 2 true)) ∧
    dragCleared (step (Event.pointerLeave 7) (initState 2 true)) :=
  drag_state_reset (initState 2 true) (Event.pointerMove 5) 7
    (fun _ => ⟨rfl, rfl, rfl⟩)

end Carousel
